import Mathlib

/-!
Shallow embedding of `src/core/ops_json.rs` (the op dispatch layer of a
deno_core fork): `op_sync`, `op_async`, `op_async_unref` and `op_json2raw`.

Modelling conventions:
* Rust `&mut OpState` access (obtained through `RefCell::borrow_mut`) is
  modelled by explicit state passing: a handler receives the current
  `OpState` value and returns the updated one; exclusive access for the
  duration of the call corresponds to the handler being the sole
  transformer of the state during the dispatch, and release corresponds to
  the updated value becoming the dispatch's resulting state.
* A Rust `Future` is modelled as an unevaluated thunk `Unit → α`; the
  dispatcher returns the thunk without forcing it, and `Future.run` gives
  the value the future yields when it eventually completes.
* Serde generics (`DeserializeOwned`, `Serialize`) are modelled by
  dictionary passing: the decoders and serializers are explicit function
  arguments.
* `serialize_op_result`, `OpPayload::deserialize`, `PromiseId` and the
  engine's fallible `Integer` conversion are code of this repository that
  is not under `src/`; they are modelled from the spec and marked as such
  in their doc comments.
-/

namespace DenoCore

/-- Engine-side (v8) values, as far as the dispatch layer inspects them. -/
inductive V8Value where
  | null
  | undefined
  | int (i : Int)
  | str (s : String)
  | boolean (b : Bool)
  | object (id : Nat)
deriving DecidableEq, Repr

/-- Modelled from the spec: `PromiseId` (the correlation identifier) is
defined outside `src/`; the spec calls it "an opaque integer minted by the
script side", so it is modelled as a mathematical integer. -/
abbrev PromiseId := Int

/-- Modelled from the spec: `AnyError` (anyhow-style error) is defined
outside `src/`; the spec only requires a message usable in descriptions. -/
structure AnyError where
  message : String
deriving DecidableEq, Repr

/-- Erased serialized success payloads (the image of `Serialize`). -/
inductive Value where
  | vnull
  | vint (i : Int)
  | vstr (s : String)
deriving DecidableEq, Repr

/-- The shared op state: host resources plus the error-class function used
when building failure envelopes. -/
structure OpState where
  get_error_class : AnyError → String
  resource_count : Nat

/-- The typed error description carried by a failure envelope. -/
structure OpError where
  class_name : String
  message : String
deriving DecidableEq, Repr

/-- The result envelope: success payload or typed error description. -/
inductive OpResult where
  | Ok (v : Value)
  | Err (e : OpError)
deriving DecidableEq, Repr

/-- An asynchronous unit of work, modelled as an unevaluated thunk. -/
def Future (α : Type) : Type := Unit → α

/-- Transform the eventual value of a future without forcing it. -/
def Future.map {α β : Type} (f : α → β) (fut : Future α) : Future β :=
  fun u => f (fut u)

/-- The value a future yields when it completes. -/
def Future.run {α : Type} (fut : Future α) : α := fut ()

/-- The op outcome: `Op` from the source, with the async variants carrying
the pending unit that completes to (promise id, result envelope). -/
inductive Op where
  | Sync (result : OpResult)
  | Async (fut : Future (PromiseId × OpResult))
  | AsyncUnref (fut : Future (PromiseId × OpResult))
  | NotFound

/-- The envelope of an `Op.Sync` outcome, if any. -/
def Op.syncEnvelope : Op → Option OpResult
  | .Sync r => some r
  | _ => none

/-- The completion pair of a tracked (`Async` or `AsyncUnref`) outcome. -/
def Op.trackedCompletion : Op → Option (PromiseId × OpResult)
  | .Async fut => some (Future.run fut)
  | .AsyncUnref fut => some (Future.run fut)
  | _ => none

/-- The per-call payload: two raw argument slots and the promise id
(`OpPayload` from the source, minus the scope pointer). -/
structure OpPayload where
  a : V8Value
  b : V8Value
  promise_id : PromiseId

/-- Modelled from the spec: `serialize_op_result` (Result Envelope, §4.1)
is defined outside `src/`. Success carries the serialized payload; failure
carries a typed description (error class from the op state, plus the
message). -/
def serialize_op_result {R : Type} (ser : R → Value)
    (result : Except AnyError R) (state : OpState) : OpResult :=
  match result with
  | .ok v => OpResult.Ok (ser v)
  | .error err =>
    OpResult.Err { class_name := state.get_error_class err, message := err.message }

/-- The serializer for the unit type, used by the source's
`Err::<(), AnyError>` decode-failure branches. -/
def unit_ser : Unit → Value := fun _ => Value.vnull

/-- Modelled from the spec: decode failures "carry an argument-position +
cause description" (§6); the decode error wraps the cause with the failing
argument position. -/
def decode_error (position : Nat) (cause : AnyError) : AnyError :=
  { message :=
      "Error parsing args at position " ++ toString position ++ ": " ++ cause.message }

/-- Modelled from the spec: `OpPayload::deserialize` is defined outside
`src/`; it "decodes up to two typed values; failures carry an
argument-position + cause description" (§6). Decoders are passed as
dictionaries for the serde generics. -/
def OpPayload.deserialize {A B : Type}
    (decA : V8Value → Except AnyError A) (decB : V8Value → Except AnyError B)
    (p : OpPayload) : Except AnyError (A × B) :=
  match decA p.a with
  | .error e => .error (decode_error 0 e)
  | .ok a =>
    match decB p.b with
    | .error e => .error (decode_error 1 e)
    | .ok b => .ok (a, b)

/-- `op_sync` from the source: decode, then run the handler under
exclusive (`&mut`, modelled as state-passing) access, and wrap the
combined result in an immediate envelope. -/
def op_sync {A B R : Type}
    (decA : V8Value → Except AnyError A) (decB : V8Value → Except AnyError B)
    (ser : R → Value)
    (op_fn : OpState → A → B → Except AnyError R × OpState)
    (state : OpState) (payload : OpPayload) : Op × OpState :=
  let (result, state) :=
    match payload.deserialize decA decB with
    | .error e => (Except.error e, state)
    | .ok (a, b) => op_fn state a b
  (Op.Sync (serialize_op_result ser result state), state)

/-- `op_async` from the source: decode (sync error envelope on failure),
otherwise build the future mapping the handler's eventual result to
(promise id, envelope), and return it kept-alive. -/
def op_async {A B RV : Type}
    (decA : V8Value → Except AnyError A) (decB : V8Value → Except AnyError B)
    (ser : RV → Value)
    (op_fn : OpState → A → B → Future (Except AnyError RV))
    (state : OpState) (payload : OpPayload) : Op :=
  let pid := payload.promise_id
  match payload.deserialize decA decB with
  | .error err => Op.Sync (serialize_op_result unit_ser (Except.error err) state)
  | .ok (a, b) =>
    Op.Async
      (Future.map (fun result => (pid, serialize_op_result ser result state))
        (op_fn state a b))

/-- `op_async_unref` from the source: identical to `op_async` except the
outcome is the not-kept-alive variant. -/
def op_async_unref {A B RV : Type}
    (decA : V8Value → Except AnyError A) (decB : V8Value → Except AnyError B)
    (ser : RV → Value)
    (op_fn : OpState → A → B → Future (Except AnyError RV))
    (state : OpState) (payload : OpPayload) : Op :=
  let pid := payload.promise_id
  match payload.deserialize decA decB with
  | .error err => Op.Sync (serialize_op_result unit_ser (Except.error err) state)
  | .ok (a, b) =>
    Op.AsyncUnref
      (Future.map (fun result => (pid, serialize_op_result ser result state))
        (op_fn state a b))

/-- The raw callback arguments; `get i` is `undefined` for absent slots,
as in v8. -/
structure FunctionCallbackArguments where
  get : Nat → V8Value

/-- The runtime state fields touched by `op_json2raw`: the two pending
queues and the waker (modelled as a wake counter). -/
structure JsRuntimeState where
  pending_ops : List (Future (PromiseId × OpResult))
  pending_unref_ops : List (Future (PromiseId × OpResult))
  waker_wakes : Nat

/-- Observable boundary events of one raw call, in order: queue pushes and
waker signals. -/
inductive RawEvent where
  | pushRef
  | pushUnref
  | wake
deriving DecidableEq, Repr

/-- The outcome of one `op_json2raw` call: updated runtime state and op
state, the script return value (if set), the thrown boundary exception (if
any), whether the call panicked, and the ordered event trace. -/
structure RawCallResult where
  state : JsRuntimeState
  op_state : OpState
  rv : Option V8Value
  thrown : Option String
  panicked : Bool
  events : List RawEvent

/-- `Value::is_null_or_undefined` from v8. -/
def is_null_or_undefined : V8Value → Bool
  | .null => true
  | .undefined => true
  | _ => false

/-- Modelled from the spec: the engine's fallible conversion of a value to
an integer (`v8::Local::<v8::Integer>::try_from`, defined outside `src/`):
it succeeds exactly on engine integers, negative ones included. -/
def v8_integer_try_from : V8Value → Except AnyError Int
  | .int i => Except.ok i
  | _ => Except.error { message := "expected v8::Integer" }

/-- The promise-id validation of `op_json2raw`: null or undefined is
accepted as 0; otherwise the value must convert to an engine integer. -/
def promise_id_of_arg (arg1 : V8Value) : Except AnyError PromiseId :=
  if is_null_or_undefined arg1 then Except.ok 0
  else v8_integer_try_from arg1

/-- The post-validation part of `op_json2raw`: build the payload, invoke
the dispatcher, and route the outcome (set the return value, file into the
matching queue and wake, or throw for `NotFound`). -/
def dispatch_payload (to_v8 : OpResult → Option V8Value)
    (op_fn : OpState → OpPayload → Op × OpState)
    (state : JsRuntimeState) (op_state : OpState)
    (args : FunctionCallbackArguments) (promise_id : PromiseId) : RawCallResult :=
  let a := args.get 2
  let b := args.get 3
  let payload : OpPayload := { a := a, b := b, promise_id := promise_id }
  let (op, op_state) := op_fn op_state payload
  match op with
  | .Sync result =>
    match to_v8 result with
    | some v =>
      { state := state, op_state := op_state, rv := some v, thrown := none,
        panicked := false, events := [] }
    | none =>
      { state := state, op_state := op_state, rv := none, thrown := none,
        panicked := true, events := [] }
  | .Async fut =>
    { state :=
        { state with
          pending_ops := state.pending_ops ++ [fut],
          waker_wakes := state.waker_wakes + 1 },
      op_state := op_state, rv := none, thrown := none, panicked := false,
      events := [RawEvent.pushRef, RawEvent.wake] }
  | .AsyncUnref fut =>
    { state :=
        { state with
          pending_unref_ops := state.pending_unref_ops ++ [fut],
          waker_wakes := state.waker_wakes + 1 },
      op_state := op_state, rv := none, thrown := none, panicked := false,
      events := [RawEvent.pushUnref, RawEvent.wake] }
  | .NotFound =>
    { state := state, op_state := op_state, rv := none,
      thrown := some "Unknown op", panicked := false, events := [] }

/-- `op_json2raw` from the source: validate the promise id (throwing a
boundary type error on an invalid shape, before any dispatch), then
dispatch the payload. `to_v8` is the envelope-to-engine-value conversion
(defined outside `src/`), whose result the source unwraps. -/
def op_json2raw (to_v8 : OpResult → Option V8Value)
    (op_fn : OpState → OpPayload → Op × OpState)
    (state : JsRuntimeState) (op_state : OpState)
    (args : FunctionCallbackArguments) : RawCallResult :=
  let arg1 := args.get 1
  match promise_id_of_arg arg1 with
  | .error err =>
    { state := state, op_state := op_state, rv := none,
      thrown := some ("invalid promise id: " ++ err.message), panicked := false,
      events := [] }
  | .ok promise_id => dispatch_payload to_v8 op_fn state op_state args promise_id

/-! Concrete fixtures used by the witness theorems. -/

/-- A concrete op state for witnesses. -/
def sample_op_state : OpState :=
  { get_error_class := fun _ => "Error", resource_count := 0 }

/-- A concrete integer decoder for witnesses. -/
def sample_dec_int : V8Value → Except AnyError Int
  | .int i => Except.ok i
  | _ => Except.error { message := "expected integer" }

/-- A concrete string decoder for witnesses. -/
def sample_dec_str : V8Value → Except AnyError String
  | .str s => Except.ok s
  | _ => Except.error { message := "expected string" }

/-- A concrete integer serializer for witnesses. -/
def ser_int : Int → Value := fun i => Value.vint i

/-- A concrete async handler for witnesses: eventually yields the first
argument plus one. -/
def sample_async_fn : OpState → Int → String → Future (Except AnyError Int) :=
  fun _ i _ => fun _ => Except.ok (i + 1)

/-- A concrete sync echo handler for witnesses: returns the first argument
and bumps the resource count. -/
def sample_echo_fn : OpState → Int → String → Except AnyError Int × OpState :=
  fun st i _ => (Except.ok i, { st with resource_count := st.resource_count + 1 })

/-- A concrete payload that decodes successfully under the sample
decoders. -/
def sample_payload : OpPayload :=
  { a := V8Value.int 4, b := V8Value.str "x", promise_id := 7 }

/-- A concrete payload whose first argument slot fails to decode under the
sample decoders. -/
def sample_bad_payload : OpPayload :=
  { a := V8Value.null, b := V8Value.str "x", promise_id := 7 }

/-- C1: on decode success, both async dispatchers invoke the handler with
the shared state handle and the decoded arguments and return the tracked
outcome of their variant, wrapping the unevaluated unit whose completion
is (promise id, envelope of the handler's outcome). -/
theorem op_async_tracked {A B RV : Type}
    (decA : V8Value → Except AnyError A) (decB : V8Value → Except AnyError B)
    (ser : RV → Value)
    (f g : OpState → A → B → Future (Except AnyError RV))
    (st : OpState) (p : OpPayload) (a : A) (b : B)
    (h : OpPayload.deserialize decA decB p = Except.ok (a, b)) :
    op_async decA decB ser f st p =
      Op.Async
        (Future.map (fun result => (p.promise_id, serialize_op_result ser result st))
          (f st a b))
    ∧ op_async_unref decA decB ser g st p =
      Op.AsyncUnref
        (Future.map (fun result => (p.promise_id, serialize_op_result ser result st))
          (g st a b))
    ∧ Op.trackedCompletion (op_async decA decB ser f st p) =
      some (p.promise_id, serialize_op_result ser (Future.run (f st a b)) st)
    ∧ Op.trackedCompletion (op_async_unref decA decB ser g st p) =
      some (p.promise_id, serialize_op_result ser (Future.run (g st a b)) st) := by
  unfold op_async op_async_unref
  rw [h]
  exact ⟨rfl, rfl, rfl, rfl⟩

/-- Witness for C1 at concrete inputs: the completion pair is the promise
id paired with the success envelope of the handler's eventual value. -/
theorem op_async_tracked_witness :
    Op.trackedCompletion
        (op_async sample_dec_int sample_dec_str ser_int sample_async_fn
          sample_op_state sample_payload) =
      some ((7 : Int), OpResult.Ok (Value.vint 5))
    ∧ Op.trackedCompletion
        (op_async_unref sample_dec_int sample_dec_str ser_int sample_async_fn
          sample_op_state sample_payload) =
      some ((7 : Int), OpResult.Ok (Value.vint 5)) := by
  have h := op_async_tracked sample_dec_int sample_dec_str ser_int sample_async_fn
    sample_async_fn sample_op_state sample_payload 4 "x" rfl
  exact ⟨h.2.2.1, h.2.2.2⟩

/-- C2: on decode success, the sync dispatcher runs the handler under
exclusive access (state passing), the resulting state is the handler's
output state, and the outcome is an immediate envelope of the handler's
result; a success result is wrapped unmodified. -/
theorem op_sync_success {A B R : Type}
    (decA : V8Value → Except AnyError A) (decB : V8Value → Except AnyError B)
    (ser : R → Value)
    (f : OpState → A → B → Except AnyError R × OpState)
    (st st' : OpState) (p : OpPayload) (a : A) (b : B) (res : Except AnyError R)
    (hdes : OpPayload.deserialize decA decB p = Except.ok (a, b))
    (hf : f st a b = (res, st')) :
    op_sync decA decB ser f st p = (Op.Sync (serialize_op_result ser res st'), st')
    ∧ (∀ v : R, res = Except.ok v →
        serialize_op_result ser res st' = OpResult.Ok (ser v)) := by
  constructor
  · simp only [op_sync, hdes, hf]
  · intro v hv
    rw [hv]
    rfl

/-- Witness for C2 at concrete inputs: the echo handler's value 4 comes
back unmodified in a success envelope and its state update is released. -/
theorem op_sync_success_witness :
    op_sync sample_dec_int sample_dec_str ser_int sample_echo_fn sample_op_state
        sample_payload =
      (Op.Sync (OpResult.Ok (Value.vint 4)),
        { sample_op_state with resource_count := sample_op_state.resource_count + 1 }) := by
  have h := op_sync_success sample_dec_int sample_dec_str ser_int sample_echo_fn
    sample_op_state
    { sample_op_state with resource_count := sample_op_state.resource_count + 1 }
    sample_payload 4 "x" (Except.ok 4) rfl rfl
  exact h.1

/-- C3: on decode failure, both async dispatchers construct no unit of
work and return an immediate failure envelope describing the decode
error; the handler is irrelevant. -/
theorem op_async_decode_failure {A B RV : Type}
    (decA : V8Value → Except AnyError A) (decB : V8Value → Except AnyError B)
    (ser : RV → Value)
    (f g : OpState → A → B → Future (Except AnyError RV))
    (st : OpState) (p : OpPayload) (e : AnyError)
    (h : OpPayload.deserialize decA decB p = Except.error e) :
    op_async decA decB ser f st p =
      Op.Sync (serialize_op_result unit_ser (Except.error e) st)
    ∧ op_async_unref decA decB ser g st p =
      Op.Sync (serialize_op_result unit_ser (Except.error e) st)
    ∧ serialize_op_result unit_ser (Except.error e) st =
      OpResult.Err { class_name := st.get_error_class e, message := e.message } := by
  unfold op_async op_async_unref
  rw [h]
  exact ⟨rfl, rfl, rfl⟩

/-- Witness for C3 at concrete inputs: a payload whose first slot fails to
decode yields an immediate failure envelope from both async variants. -/
theorem op_async_decode_failure_witness :
    op_async sample_dec_int sample_dec_str ser_int sample_async_fn sample_op_state
        sample_bad_payload =
      Op.Sync
        (OpResult.Err
          { class_name := "Error",
            message := "Error parsing args at position 0: expected integer" })
    ∧ op_async_unref sample_dec_int sample_dec_str ser_int sample_async_fn
        sample_op_state sample_bad_payload =
      Op.Sync
        (OpResult.Err
          { class_name := "Error",
            message := "Error parsing args at position 0: expected integer" }) := by
  have h := op_async_decode_failure sample_dec_int sample_dec_str ser_int
    sample_async_fn sample_async_fn sample_op_state sample_bad_payload
    (decode_error 0 { message := "expected integer" }) rfl
  exact ⟨h.1, h.2.1⟩

/-- C4: on decode failure, the sync dispatcher never invokes the handler,
leaves the state unchanged, and returns an immediate failure envelope
whose error names the failing argument position and cause. -/
theorem op_sync_decode_failure {A B R : Type}
    (decA : V8Value → Except AnyError A) (decB : V8Value → Except AnyError B)
    (ser : R → Value)
    (f : OpState → A → B → Except AnyError R × OpState)
    (st : OpState) (p : OpPayload) (e : AnyError)
    (hdes : OpPayload.deserialize decA decB p = Except.error e) :
    op_sync decA decB ser f st p =
      (Op.Sync (OpResult.Err { class_name := st.get_error_class e, message := e.message }),
        st)
    ∧ ((∃ c, decA p.a = Except.error c ∧ e = decode_error 0 c)
       ∨ (∃ a c, decA p.a = Except.ok a ∧ decB p.b = Except.error c ∧
            e = decode_error 1 c)) := by
  constructor
  · simp only [op_sync, hdes]
    rfl
  · unfold OpPayload.deserialize at hdes
    cases hA : decA p.a with
    | error c =>
      rw [hA] at hdes
      simp only [] at hdes
      left
      exact ⟨c, rfl, (Except.error.injEq _ _ ▸ hdes).symm⟩
    | ok a =>
      rw [hA] at hdes
      cases hB : decB p.b with
      | error c =>
        rw [hB] at hdes
        right
        exact ⟨a, c, rfl, rfl, (Except.error.injEq _ _ ▸ hdes).symm⟩
      | ok b =>
        rw [hB] at hdes
        exact absurd hdes (by simp)

/-- Witness for C4 at concrete inputs: the failure envelope names argument
position 0 and its cause, and the state is unchanged. -/
theorem op_sync_decode_failure_witness :
    op_sync sample_dec_int sample_dec_str ser_int sample_echo_fn sample_op_state
        sample_bad_payload =
      (Op.Sync
        (OpResult.Err
          { class_name := "Error",
            message := "Error parsing args at position 0: expected integer" }),
        sample_op_state) := by
  have h := op_sync_decode_failure sample_dec_int sample_dec_str ser_int
    sample_echo_fn sample_op_state sample_bad_payload
    (decode_error 0 { message := "expected integer" }) rfl
  exact h.1

/-- C8: a handler error produces the same failure envelope on the sync
path as in the async variants' completion pairs: the envelope depends only
on the error and the state, not on the dispatch path. -/
theorem handler_error_envelope_uniform {A B R RV : Type}
    (decA : V8Value → Except AnyError A) (decB : V8Value → Except AnyError B)
    (serR : R → Value) (serRV : RV → Value)
    (fS : OpState → A → B → Except AnyError R × OpState)
    (fA : OpState → A → B → Future (Except AnyError RV))
    (st : OpState) (p : OpPayload) (a : A) (b : B) (e : AnyError)
    (hdes : OpPayload.deserialize decA decB p = Except.ok (a, b))
    (hS : fS st a b = (Except.error e, st))
    (hA : Future.run (fA st a b) = Except.error e) :
    Op.syncEnvelope (op_sync decA decB serR fS st p).1 =
      some (OpResult.Err { class_name := st.get_error_class e, message := e.message })
    ∧ Op.trackedCompletion (op_async decA decB serRV fA st p) =
      some (p.promise_id,
        OpResult.Err { class_name := st.get_error_class e, message := e.message })
    ∧ Op.trackedCompletion (op_async_unref decA decB serRV fA st p) =
      some (p.promise_id,
        OpResult.Err { class_name := st.get_error_class e, message := e.message }) := by
  refine ⟨?_, ?_, ?_⟩
  · simp only [op_sync, hdes, hS]
    rfl
  · unfold op_async
    rw [hdes]
    simp only [Op.trackedCompletion, Future.run, Future.map]
    rw [show (fA st a b) () = Except.error e from hA]
    rfl
  · unfold op_async_unref
    rw [hdes]
    simp only [Op.trackedCompletion, Future.run, Future.map]
    rw [show (fA st a b) () = Except.error e from hA]
    rfl

/-- A concrete failing sync handler for the C8 witness. -/
def sample_fail_sync_fn : OpState → Int → String → Except AnyError Int × OpState :=
  fun st _ _ => (Except.error { message := "boom" }, st)

/-- A concrete failing async handler for the C8 witness. -/
def sample_fail_async_fn : OpState → Int → String → Future (Except AnyError Int) :=
  fun _ _ _ => fun _ => Except.error { message := "boom" }

/-- Witness for C8 at concrete inputs: the error "boom" yields the same
envelope on the sync path and inside both async completions. -/
theorem handler_error_envelope_uniform_witness :
    Op.syncEnvelope
        (op_sync sample_dec_int sample_dec_str ser_int sample_fail_sync_fn
          sample_op_state sample_payload).1 =
      some (OpResult.Err { class_name := "Error", message := "boom" })
    ∧ Op.trackedCompletion
        (op_async sample_dec_int sample_dec_str ser_int sample_fail_async_fn
          sample_op_state sample_payload) =
      some ((7 : Int), OpResult.Err { class_name := "Error", message := "boom" })
    ∧ Op.trackedCompletion
        (op_async_unref sample_dec_int sample_dec_str ser_int sample_fail_async_fn
          sample_op_state sample_payload) =
      some ((7 : Int), OpResult.Err { class_name := "Error", message := "boom" }) := by
  have h := handler_error_envelope_uniform sample_dec_int sample_dec_str ser_int
    ser_int sample_fail_sync_fn sample_fail_async_fn sample_op_state sample_payload
    4 "x" { message := "boom" } rfl rfl rfl
  exact h

/-! Fixtures for the raw-call (`op_json2raw`) theorems. -/

/-- A concrete runtime state with empty queues for witnesses. -/
def sample_runtime_state : JsRuntimeState :=
  { pending_ops := [], pending_unref_ops := [], waker_wakes := 0 }

/-- A concrete envelope-to-engine-value conversion for witnesses: integer
success payloads become engine integers. -/
def sample_to_v8 : OpResult → Option V8Value
  | .Ok (Value.vint i) => some (V8Value.int i)
  | _ => some V8Value.null

/-- A concrete dispatcher for witnesses that echoes the promise id it was
handed, making the payload observable in the return value. -/
def pid_echo_op_fn : OpState → OpPayload → Op × OpState :=
  fun st p => (Op.Sync (OpResult.Ok (Value.vint p.promise_id)), st)

/-- A raw call whose promise-id slot holds the engine integer -1. -/
def neg_pid_args : FunctionCallbackArguments :=
  { get := fun n => if n = 1 then V8Value.int (-1) else V8Value.undefined }

/-- `is_null_or_undefined` is false on engine integers. -/
theorem is_null_or_undefined_int (i : Int) :
    is_null_or_undefined (V8Value.int i) = false := rfl

/-- The engine integer conversion succeeds on engine integers. -/
theorem v8_integer_try_from_int (i : Int) :
    v8_integer_try_from (V8Value.int i) = Except.ok i := rfl

/-- C5 counterexample: a call whose promise-id slot holds the negative
integer -1 is not aborted with a boundary type error; the dispatcher runs
with promise id -1 (visible in the echoed return value) and nothing is
enqueued. -/
theorem promise_id_negative_not_rejected :
    (op_json2raw sample_to_v8 pid_echo_op_fn sample_runtime_state sample_op_state
        neg_pid_args).thrown = none
    ∧ (op_json2raw sample_to_v8 pid_echo_op_fn sample_runtime_state sample_op_state
        neg_pid_args).rv = some (V8Value.int (-1)) := by
  exact ⟨rfl, rfl⟩

/-- C5 (amended): a missing, null or undefined promise-id slot defaults to
0 and dispatch proceeds; a slot holding any engine integer — negative ones
included — is accepted and dispatch proceeds with that value; any other
shape aborts the whole call with a boundary type error before the
dispatcher runs, enqueuing nothing. -/
theorem promise_id_validation (to_v8 : OpResult → Option V8Value)
    (op_fn : OpState → OpPayload → Op × OpState)
    (st : JsRuntimeState) (opst : OpState) (args : FunctionCallbackArguments) :
    (is_null_or_undefined (args.get 1) = true →
      op_json2raw to_v8 op_fn st opst args =
        dispatch_payload to_v8 op_fn st opst args 0)
    ∧ (∀ i : Int, args.get 1 = V8Value.int i →
      op_json2raw to_v8 op_fn st opst args =
        dispatch_payload to_v8 op_fn st opst args i)
    ∧ (∀ err : AnyError, is_null_or_undefined (args.get 1) = false →
      v8_integer_try_from (args.get 1) = Except.error err →
      op_json2raw to_v8 op_fn st opst args =
        { state := st, op_state := opst, rv := none,
          thrown := some ("invalid promise id: " ++ err.message), panicked := false,
          events := [] }) := by
  refine ⟨?_, ?_, ?_⟩
  · intro h
    simp only [op_json2raw, promise_id_of_arg, h, if_true]
  · intro i h
    simp only [op_json2raw, promise_id_of_arg, h, is_null_or_undefined_int,
      v8_integer_try_from_int, Bool.false_eq_true, if_false]
  · intro err h1 h2
    simp only [op_json2raw, promise_id_of_arg, h1, h2, Bool.false_eq_true, if_false]

/-- A raw call whose promise-id slot holds a string (a non-integer,
non-null shape). -/
def str_pid_args : FunctionCallbackArguments :=
  { get := fun n => if n = 1 then V8Value.str "nope" else V8Value.undefined }

/-- Witness for the amended C5 at a concrete input: a string promise id
aborts the call with the boundary type error, with no return value, no
enqueue, and the dispatcher never consulted. -/
theorem promise_id_validation_witness :
    op_json2raw sample_to_v8 pid_echo_op_fn sample_runtime_state sample_op_state
        str_pid_args =
      { state := sample_runtime_state, op_state := sample_op_state, rv := none,
        thrown := some ("invalid promise id: " ++ "expected v8::Integer"),
        panicked := false, events := [] } :=
  (promise_id_validation sample_to_v8 pid_echo_op_fn sample_runtime_state
    sample_op_state str_pid_args).2.2 { message := "expected v8::Integer" } rfl rfl

/-- C6: when the dispatcher reports `NotFound`, the call throws the
boundary type error "Unknown op", sets no return value, touches neither
queue nor the waker, and emits no events — for any supplied arguments. -/
theorem not_found_dispatch (to_v8 : OpResult → Option V8Value)
    (op_fn : OpState → OpPayload → Op × OpState)
    (st : JsRuntimeState) (opst opst' : OpState)
    (args : FunctionCallbackArguments) (pid : PromiseId)
    (hval : promise_id_of_arg (args.get 1) = Except.ok pid)
    (hop : op_fn opst { a := args.get 2, b := args.get 3, promise_id := pid } =
      (Op.NotFound, opst')) :
    op_json2raw to_v8 op_fn st opst args =
      { state := st, op_state := opst', rv := none, thrown := some "Unknown op",
        panicked := false, events := [] } := by
  simp only [op_json2raw, hval, dispatch_payload, hop]

/-- A dispatcher that reports no registered handler. -/
def not_found_op_fn : OpState → OpPayload → Op × OpState :=
  fun st _ => (Op.NotFound, st)

/-- A raw call with every slot null (promise id defaults to 0). -/
def null_pid_args : FunctionCallbackArguments :=
  { get := fun _ => V8Value.null }

/-- Witness for C6 at a concrete input: the unknown-op type error is
thrown, the queues and waker are untouched, and no value is returned. -/
theorem not_found_dispatch_witness :
    op_json2raw sample_to_v8 not_found_op_fn sample_runtime_state sample_op_state
        null_pid_args =
      { state := sample_runtime_state, op_state := sample_op_state, rv := none,
        thrown := some "Unknown op", panicked := false, events := [] } :=
  not_found_dispatch sample_to_v8 not_found_op_fn sample_runtime_state
    sample_op_state sample_op_state null_pid_args 0 rfl rfl

/-- C7: an `Op.Async` outcome is appended to the kept-alive queue and then
the waker is signaled; an `Op.AsyncUnref` outcome is appended to the
not-kept-alive queue and then the waker is signaled; an `Op.Sync` outcome
sets the return value, appends to neither queue, and does not signal the
waker. -/
theorem tracked_outcomes_routing (to_v8 : OpResult → Option V8Value)
    (op_fn : OpState → OpPayload → Op × OpState)
    (st : JsRuntimeState) (opst : OpState)
    (args : FunctionCallbackArguments) (pid : PromiseId)
    (hval : promise_id_of_arg (args.get 1) = Except.ok pid) :
    (∀ fut opst',
      op_fn opst { a := args.get 2, b := args.get 3, promise_id := pid } =
        (Op.Async fut, opst') →
      op_json2raw to_v8 op_fn st opst args =
        { state :=
            { st with
              pending_ops := st.pending_ops ++ [fut],
              waker_wakes := st.waker_wakes + 1 },
          op_state := opst', rv := none, thrown := none, panicked := false,
          events := [RawEvent.pushRef, RawEvent.wake] })
    ∧ (∀ fut opst',
      op_fn opst { a := args.get 2, b := args.get 3, promise_id := pid } =
        (Op.AsyncUnref fut, opst') →
      op_json2raw to_v8 op_fn st opst args =
        { state :=
            { st with
              pending_unref_ops := st.pending_unref_ops ++ [fut],
              waker_wakes := st.waker_wakes + 1 },
          op_state := opst', rv := none, thrown := none, panicked := false,
          events := [RawEvent.pushUnref, RawEvent.wake] })
    ∧ (∀ r v opst',
      op_fn opst { a := args.get 2, b := args.get 3, promise_id := pid } =
        (Op.Sync r, opst') →
      to_v8 r = some v →
      op_json2raw to_v8 op_fn st opst args =
        { state := st, op_state := opst', rv := some v, thrown := none,
          panicked := false, events := [] }) := by
  refine ⟨?_, ?_, ?_⟩
  · intro fut opst' hop
    simp only [op_json2raw, hval, dispatch_payload, hop]
  · intro fut opst' hop
    simp only [op_json2raw, hval, dispatch_payload, hop]
  · intro r v opst' hop hconv
    simp only [op_json2raw, hval, dispatch_payload, hop, hconv]

/-- A concrete pending unit for the C7 witness. -/
def fut7 : Future (PromiseId × OpResult) :=
  fun _ => ((7 : Int), OpResult.Ok (Value.vint 1))

/-- A dispatcher returning a kept-alive tracked outcome for the C7
witness. -/
def async_op_fn : OpState → OpPayload → Op × OpState :=
  fun st _ => (Op.Async fut7, st)

/-- A raw call whose promise-id slot holds the engine integer 7. -/
def pid7_args : FunctionCallbackArguments :=
  { get := fun n => if n = 1 then V8Value.int 7 else V8Value.undefined }

/-- Witness for C7 at a concrete input: the kept-alive unit is appended to
`pending_ops` and the waker is signaled afterward. -/
theorem tracked_outcomes_routing_witness :
    op_json2raw sample_to_v8 async_op_fn sample_runtime_state sample_op_state
        pid7_args =
      { state :=
          { sample_runtime_state with
            pending_ops := sample_runtime_state.pending_ops ++ [fut7],
            waker_wakes := sample_runtime_state.waker_wakes + 1 },
        op_state := sample_op_state, rv := none, thrown := none, panicked := false,
        events := [RawEvent.pushRef, RawEvent.wake] } :=
  (tracked_outcomes_routing sample_to_v8 async_op_fn sample_runtime_state
    sample_op_state pid7_args 7 rfl).1 fut7 sample_op_state rfl

/-- C9: promise-id validation only checks that a present slot is an engine
integer; a negative integer passes validation and dispatch proceeds with
that negative value as the promise id. -/
theorem promise_id_negative_accepted (to_v8 : OpResult → Option V8Value)
    (op_fn : OpState → OpPayload → Op × OpState)
    (st : JsRuntimeState) (opst : OpState)
    (args : FunctionCallbackArguments) (i : Int)
    (hneg : i < 0) (h1 : args.get 1 = V8Value.int i) :
    promise_id_of_arg (args.get 1) = Except.ok i
    ∧ op_json2raw to_v8 op_fn st opst args =
      dispatch_payload to_v8 op_fn st opst args i := by
  have hv : promise_id_of_arg (args.get 1) = Except.ok i := by
    rw [h1]
    rfl
  exact ⟨hv, by simp only [op_json2raw, hv]⟩

/-- A raw call whose promise-id slot holds the engine integer -7. -/
def neg7_args : FunctionCallbackArguments :=
  { get := fun n => if n = 1 then V8Value.int (-7) else V8Value.undefined }

/-- Witness for C9 at a concrete input: -7 passes validation and dispatch
proceeds with promise id -7. -/
theorem promise_id_negative_accepted_witness :
    promise_id_of_arg (neg7_args.get 1) = Except.ok (-7)
    ∧ op_json2raw sample_to_v8 pid_echo_op_fn sample_runtime_state sample_op_state
        neg7_args =
      dispatch_payload sample_to_v8 pid_echo_op_fn sample_runtime_state
        sample_op_state neg7_args (-7) :=
  promise_id_negative_accepted sample_to_v8 pid_echo_op_fn sample_runtime_state
    sample_op_state neg7_args (-7) (by decide) rfl

/-- C10: in the `Op.Sync` branch the envelope-to-engine-value conversion
is unwrapped: if it returns no value the call panics rather than
producing an error envelope or a boundary exception. -/
theorem sync_result_conversion_panics (to_v8 : OpResult → Option V8Value)
    (op_fn : OpState → OpPayload → Op × OpState)
    (st : JsRuntimeState) (opst opst' : OpState)
    (args : FunctionCallbackArguments) (pid : PromiseId) (r : OpResult)
    (hval : promise_id_of_arg (args.get 1) = Except.ok pid)
    (hop : op_fn opst { a := args.get 2, b := args.get 3, promise_id := pid } =
      (Op.Sync r, opst'))
    (hconv : to_v8 r = none) :
    op_json2raw to_v8 op_fn st opst args =
      { state := st, op_state := opst', rv := none, thrown := none,
        panicked := true, events := [] } := by
  simp only [op_json2raw, hval, dispatch_payload, hop, hconv]

/-- A conversion that always fails, for the C10 witness. -/
def none_to_v8 : OpResult → Option V8Value := fun _ => none

/-- Witness for C10 at a concrete input: a failing conversion makes the
call panic, with no thrown exception and no return value. -/
theorem sync_result_conversion_panics_witness :
    op_json2raw none_to_v8 pid_echo_op_fn sample_runtime_state sample_op_state
        null_pid_args =
      { state := sample_runtime_state, op_state := sample_op_state, rv := none,
        thrown := none, panicked := true, events := [] } :=
  sync_result_conversion_panics none_to_v8 pid_echo_op_fn sample_runtime_state
    sample_op_state sample_op_state null_pid_args 0 (OpResult.Ok (Value.vint 0))
    rfl rfl rfl

end DenoCore
